import Mathlib

/-!
Shallow embedding of the query engine of `e621-scrape-noapi`
(`src/e621-noapi-cli/`), and proofs about it.

The data a query predicate sees is a record's tag set, modelled as
`Finset String` (the Python code converts the `tag_string` column with
`set(x.split(" "))`, so membership is all that matters).  The optional
`and_tags` / `not_tags` / `or_tags` parameters of the query builders are
`Option (Finset String)`: Python distinguishes `None` from a set, and the
guards `not and_tags` test Python truthiness (false for both `None` and the
empty set).
-/

/-- Python truthiness of an `Optional[Set[str]]` value: `None` and the empty
set are falsy, a non-empty set is truthy.  This is what the guards
`not and_tags`, `not not_tags`, `not or_tags` in the source test. -/
def setTruthy (o : Option (Finset String)) : Bool :=
  match o with
  | none => false
  | some s => decide (s ≠ ∅)

/-- The set of tags an `Optional[Set[str]]` argument denotes: `None` behaves
as the empty set for iteration purposes (`all`/`any` over it). -/
def optSet (o : Option (Finset String)) : Finset String :=
  o.getD ∅

namespace e6query

/-- Local `and_success` of `query_function` (e6query.py line 72):
`not and_tags or all([and_tag in tags for and_tag in and_tags])`. -/
def and_check (and_tags : Option (Finset String)) (tags : Finset String) : Bool :=
  !setTruthy and_tags || decide (∀ t ∈ optSet and_tags, t ∈ tags)

/-- Local `not_success` of `query_function` (e6query.py lines 75-77):
`not not_tags or not any([not_tag in tags for not_tag in not_tags])`. -/
def not_check (not_tags : Option (Finset String)) (tags : Finset String) : Bool :=
  !setTruthy not_tags || !decide (∃ t ∈ optSet not_tags, t ∈ tags)

/-- Local `or_success` of `query_function` (e6query.py line 80):
`not or_tags or any([or_tag in tags for or_tag in or_tags])`. -/
def or_check (or_tags : Option (Finset String)) (tags : Finset String) : Bool :=
  !setTruthy or_tags || decide (∃ t ∈ optSet or_tags, t ∈ tags)

/-- The inner `query_function` closure of
`PostsSearchQueryManager.build_query_function` (e6query.py lines 71-83),
with its three early `return False` exits and the final
`return and_success and not_success and or_success`. -/
def query_function (and_tags not_tags or_tags : Option (Finset String))
    (tags : Finset String) : Bool :=
  if !and_check and_tags tags then false
  else if !not_check not_tags tags then false
  else if !or_check or_tags tags then false
  else and_check and_tags tags && not_check not_tags tags && or_check or_tags tags

/-- `PostsSearchQueryManager.build_query_function` (e6query.py lines 65-85):
returns the closure over the three optional tag sets.  It performs no
validation of its arguments, so every combination of sets (overlapping ones
included) is accepted and yields a predicate. -/
def build_query_function (and_tags not_tags or_tags : Option (Finset String)) :
    Finset String → Bool :=
  query_function and_tags not_tags or_tags

/-- `PostsSearchQueryManager.filter` (e6query.py lines 119-141): the
dataframe row selection `e6_df[e6_df["tags"].map(build_query_function(...))]`
keeps, in their input order, exactly the rows whose tag set satisfies the
built predicate.  A record collection is modelled as the list of the rows'
tag sets. -/
def filterPosts (and_tags not_tags or_tags : Option (Finset String))
    (records : List (Finset String)) : List (Finset String) :=
  records.filter (build_query_function and_tags not_tags or_tags)

end e6query

namespace e6search

/-- The inner `query_function` closure of `SearchQuery.build_query_function`
in e6search.py (lines 16-28), transcribed from that file. -/
def query_function (and_tags not_tags or_tags : Option (Finset String))
    (tags : Finset String) : Bool :=
  let and_success := !setTruthy and_tags || decide (∀ t ∈ optSet and_tags, t ∈ tags)
  if !and_success then false
  else
    let not_success := !setTruthy not_tags || !decide (∃ t ∈ optSet not_tags, t ∈ tags)
    if !not_success then false
    else
      let or_success := !setTruthy or_tags || decide (∃ t ∈ optSet or_tags, t ∈ tags)
      if !or_success then false
      else and_success && not_success && or_success

end e6search

namespace e6db

/-- The inner `query_function` closure of `SearchQuery.build_query_function`
in e6db.py (lines 168-178), transcribed from that file. -/
def query_function (and_tags not_tags or_tags : Option (Finset String))
    (tags : Finset String) : Bool :=
  let and_success := !setTruthy and_tags || decide (∀ t ∈ optSet and_tags, t ∈ tags)
  if !and_success then false
  else
    let not_success := !setTruthy not_tags || !decide (∃ t ∈ optSet not_tags, t ∈ tags)
    if !not_success then false
    else
      let or_success := !setTruthy or_tags || decide (∃ t ∈ optSet or_tags, t ∈ tags)
      if !or_success then false
      else and_success && not_success && or_success

end e6db

/-! Embedding of `PostsSearchQueryManager.build_search_query`
(e6query.py lines 87-110).  The Python function is executed statement by
statement in an error monad, because several of its statements raise:

* `query_str: List[str] = List()` (line 93) calls the bare `typing.List`
  alias, which raises
  `TypeError: Type List cannot be instantiated; use list() instead`
  (checked against CPython 3.11); the same holds for `order_str` on line 94;
* `re.findall(..., token)` (line 96) compiles the pattern
  `^([~-+]*)([a-zA-Z0-9]*)([:]*)([>=!]*)([a-zA-Z0-9]*)$`, whose character
  class contains the reversed range tilde-to-plus (code 126 down to code
  43), raising `re.error: bad character range ~-+ at position 3`;
* even with a valid pattern, unpacking the 1-element list returned by
  `re.findall` into five variables raises
  `ValueError: not enough values to unpack (expected 5, got 1)`;
* `colon is None` (line 97) compares a regex group, which is always a
  `str` (possibly empty), against `None`, so it is always `False`.

So the first raise, the `TypeError` from line 93, fires on every input
before any token is examined. -/

/-- The exceptions the statements of `build_search_query` can raise. -/
inductive PyError where
  | typeError (msg : String)
  | reError (msg : String)
  | valueError (msg : String)
deriving DecidableEq, Repr

/-- Calling the bare `typing.List` alias, as `build_search_query` does on
lines 93-94: raises `TypeError`. -/
def typingListCall (α : Type) : Except PyError (List α) :=
  .error (.typeError "Type List cannot be instantiated; use list() instead")

/-- Evaluating `re.findall` with the pattern of e6query.py line 96 on a
token: pattern compilation raises `re.error` because of the reversed
character range in the class after the caret. -/
def reFindallToken (_token : String) :
    Except PyError (List (String × String × String × String × String)) :=
  .error (.reError "bad character range at position 3")

/-- Python tuple unpacking `a, b, c, d, e = xs` where `xs` is the list
`re.findall` returns: unpacking requires exactly five elements.  The
pattern of line 96 is anchored and every group is starred, so (were the
pattern valid) every token would produce exactly one match and `xs` would
be a one-element list of group tuples; the unpacking therefore raises
`ValueError` in every reachable case and the five names are never bound. -/
def unpackFive (xs : List (String × String × String × String × String)) :
    Except PyError (String × String × String × String × String) :=
  match xs with
  | [_] => .error (.valueError "not enough values to unpack (expected 5, got 1)")
  | _ => .error (.valueError "not enough values to unpack (expected 5)")

/-- Python `x is None` applied to a value that is statically a `str` (a
group returned by `re.findall` is always a string, possibly empty): the
test is always `False`. -/
def pyStrIsNone (_s : String) : Bool :=
  false

/-- The local state `build_search_query` accumulates: the three tag sets
and the two string lists for field comparisons and order directives. -/
structure SearchQueryState where
  and_tags : Finset String
  not_tags : Finset String
  or_tags : Finset String
  query_str : List String
  order_str : List String
deriving DecidableEq

/-- `PostsSearchQueryManager.build_search_query` (e6query.py lines 87-110),
statement by statement.  The Python function has no `return` statement;
the embedding returns the accumulated local state so that what (if
anything) was parsed is observable.  Because `typingListCall` raises, the
token loop is unreachable for every input string. -/
def build_search_query (query_string : String) :
    Except PyError SearchQueryState := do
  let mut not_tags : Finset String := ∅
  let mut or_tags : Finset String := ∅
  let mut and_tags : Finset String := ∅
  let mut query_str : List String ← typingListCall String
  let mut order_str : List String ← typingListCall String
  for token in query_string.splitOn " " do
    let found ← reFindallToken token
    let (shebang, spec, colon, oper, arg) ← unpackFive found
    if pyStrIsNone colon then
      if shebang == "+" then
        and_tags := insert spec and_tags
      else if shebang == "-" then
        not_tags := insert spec not_tags
      else if shebang == "~" then
        or_tags := insert spec or_tags
      else
        and_tags := insert spec and_tags
    else
      if ["score", "down_score", "image_width", "image_height"].contains spec then
        query_str := query_str ++ [spec ++ " " ++ oper ++ " " ++ arg]
      else if spec == "order" then
        order_str := order_str ++ [arg]
  pure ⟨and_tags, not_tags, or_tags, query_str, order_str⟩

/-! Embedding of the URL derivation and of the sort call in cli.py. -/

/-- Python string slicing `s[a:b]` for non-negative bounds. -/
def pySlice (s : String) (a b : Nat) : String :=
  ((s.data.drop a).take (b - a)).asString

/-- `PostsSearchQueryManager.get_url` (e6query.py lines 115-117), as a
function of the row fields it reads: the `md5` hash string and the
`file_ext` extension string. -/
def get_url (md5 file_ext : String) : String :=
  "https://static1.e621.net/data/" ++ pySlice md5 0 2 ++ "/" ++
    pySlice md5 2 4 ++ "/" ++ md5 ++ "." ++ file_ext

/-- `SearchQuery.get_file_url` (e6search.py lines 32-34), transcribed from
that file. -/
def get_file_url (md5 file_ext : String) : String :=
  "https://static1.e621.net/data/" ++ pySlice md5 0 2 ++ "/" ++
    pySlice md5 2 4 ++ "/" ++ md5 ++ "." ++ file_ext

/-- The sort algorithms `pandas.DataFrame.sort_values` accepts through its
`kind` parameter. -/
inductive NpSortKind where
  | quicksort
  | mergesort
  | heapsort
  | stableKind
deriving DecidableEq, Repr

/-- The sort call of cli.py lines 204-206,
`posts_df.sort_values("fav_count", axis=0, ascending=False, inplace=True)`:
no `kind` argument is passed, so the documented pandas default,
`quicksort`, applies. -/
def mainSortValuesKind : NpSortKind :=
  .quicksort

/-- Modelled from the spec: the spec requires a stable sort, and the sort
itself is pandas/numpy library code outside this repository.  Per the
pandas `sort_values` documentation, `mergesort` and `stable` are the only
stable kinds; `quicksort` (numpy introsort) and `heapsort` give no
stability guarantee. -/
def NpSortKind.guaranteesStable : NpSortKind → Bool
  | .mergesort => true
  | .stableKind => true
  | .quicksort => false
  | .heapsort => false

/-! Helper lemmas characterising the three stage checks of the e6query
predicate, and the predicate as their conjunction. -/

lemma and_check_true_iff (A : Option (Finset String)) (tags : Finset String) :
    e6query.and_check A tags = true ↔ ∀ t ∈ optSet A, t ∈ tags := by
  cases A with
  | none => simp [e6query.and_check, setTruthy, optSet]
  | some s =>
      by_cases hs : s = ∅
      · simp [e6query.and_check, setTruthy, optSet, hs]
      · simp [e6query.and_check, setTruthy, optSet, hs]

lemma not_check_true_iff (N : Option (Finset String)) (tags : Finset String) :
    e6query.not_check N tags = true ↔ ∀ t ∈ optSet N, t ∉ tags := by
  cases N with
  | none => simp [e6query.not_check, setTruthy, optSet]
  | some s =>
      by_cases hs : s = ∅
      · simp [e6query.not_check, setTruthy, optSet, hs]
      · simp [e6query.not_check, setTruthy, optSet, hs]

lemma not_check_false_iff (N : Option (Finset String)) (tags : Finset String) :
    e6query.not_check N tags = false ↔ (optSet N ∩ tags).Nonempty := by
  cases N with
  | none => simp [e6query.not_check, setTruthy, optSet]
  | some s =>
      by_cases hs : s = ∅
      · simp [e6query.not_check, setTruthy, optSet, hs]
      · simp [e6query.not_check, setTruthy, optSet, hs, Finset.Nonempty,
          Finset.mem_inter]

lemma or_check_true_iff (O : Option (Finset String)) (tags : Finset String) :
    e6query.or_check O tags = true ↔
      (optSet O = ∅ ∨ ∃ t ∈ optSet O, t ∈ tags) := by
  cases O with
  | none => simp [e6query.or_check, setTruthy, optSet]
  | some s =>
      by_cases hs : s = ∅
      · simp [e6query.or_check, setTruthy, optSet, hs]
      · simp [e6query.or_check, setTruthy, optSet, hs]

lemma query_function_eq_checks (A N O : Option (Finset String))
    (tags : Finset String) :
    e6query.query_function A N O tags =
      (e6query.and_check A tags &&
        (e6query.not_check N tags && e6query.or_check O tags)) := by
  unfold e6query.query_function
  cases hA : e6query.and_check A tags <;>
    cases hN : e6query.not_check N tags <;>
    cases hO : e6query.or_check O tags <;>
    simp [hA, hN, hO]

lemma query_function_false_of_overlap (A N O : Option (Finset String))
    (tags : Finset String) (h : ∃ t ∈ optSet A, t ∈ optSet N) :
    e6query.query_function A N O tags = false := by
  obtain ⟨t, htA, htN⟩ := h
  rw [query_function_eq_checks]
  by_cases ht : t ∈ tags
  · have hnc : e6query.not_check N tags = false := by
      rw [not_check_false_iff]
      exact ⟨t, Finset.mem_inter.mpr ⟨htN, ht⟩⟩
    simp [hnc]
  · have hac : e6query.and_check A tags = false := by
      cases hA : e6query.and_check A tags
      · rfl
      · exact absurd ((and_check_true_iff A tags).mp hA t htA) ht
    simp [hac]

/-! The claim theorems. -/

/-- C1: the tag predicate built by `build_query_function` admits a record
only if every required (`and`) tag is a member of the record's tag set;
when the required set is empty or absent, the required check passes for
every record. -/
theorem required_tags_admit_only_supersets (A N O : Option (Finset String))
    (tags : Finset String) :
    (e6query.query_function A N O tags = true → ∀ t ∈ optSet A, t ∈ tags)
    ∧ (optSet A = ∅ → e6query.and_check A tags = true) := by
  refine ⟨?_, ?_⟩
  · intro h
    rw [query_function_eq_checks, Bool.and_eq_true] at h
    exact (and_check_true_iff A tags).mp h.1
  · intro h
    rw [and_check_true_iff]
    simp [h]

/-- Witness for C1 at concrete inputs. -/
theorem required_tags_admit_only_supersets_witness :
    (∀ t ∈ optSet (some {"wolf"}), t ∈ ({"wolf", "bear"} : Finset String))
    ∧ e6query.and_check (some (∅ : Finset String)) {"bear"} = true :=
  ⟨(required_tags_admit_only_supersets (some {"wolf"}) none none
      {"wolf", "bear"}).1 (by decide),
   (required_tags_admit_only_supersets (some ∅) none none {"bear"}).2 rfl⟩

/-- C2: the tag predicate built from an excluded (`not`) set rejects a
record if and only if the excluded set has non-empty intersection with the
record's tag set; when the excluded set is empty or absent, the excluded
check passes for every record. -/
theorem excluded_tags_reject_iff_intersect (N : Option (Finset String))
    (tags : Finset String) :
    (e6query.query_function none N none tags = false ↔
      (optSet N ∩ tags).Nonempty)
    ∧ (optSet N = ∅ → e6query.not_check N tags = true) := by
  refine ⟨?_, ?_⟩
  · have h1 : e6query.query_function none N none tags =
        e6query.not_check N tags := by
      rw [query_function_eq_checks]
      simp [e6query.and_check, e6query.or_check, setTruthy]
    rw [h1]
    exact not_check_false_iff N tags
  · intro h
    rw [not_check_true_iff]
    simp [h]

/-- Witness for C2 at concrete inputs. -/
theorem excluded_tags_reject_iff_intersect_witness :
    (optSet (some {"fox"}) ∩ ({"fox", "wolf"} : Finset String)).Nonempty
    ∧ e6query.not_check (some (∅ : Finset String)) {"wolf"} = true :=
  ⟨(excluded_tags_reject_iff_intersect (some {"fox"}) {"fox", "wolf"}).1.mp
      (by decide),
   (excluded_tags_reject_iff_intersect (some ∅) {"wolf"}).2 rfl⟩

/-- C3: the optional (`or`) check passes if and only if the optional set is
empty or absent, or at least one optional tag is in the record's tag set;
in particular, with an empty optional set the whole predicate behaves
exactly as with no optional constraint, so an empty optional set never
filters any record out. -/
theorem optional_tags_pass_iff_empty_or_match (A N O : Option (Finset String))
    (tags : Finset String) :
    (e6query.or_check O tags = true ↔
      (optSet O = ∅ ∨ ∃ t ∈ optSet O, t ∈ tags))
    ∧ (optSet O = ∅ →
        e6query.query_function A N O tags = e6query.query_function A N none tags) := by
  refine ⟨or_check_true_iff O tags, ?_⟩
  intro h
  have horc : e6query.or_check O tags = e6query.or_check none tags := by
    cases O with
    | none => rfl
    | some s =>
        have hs : s = ∅ := by simpa [optSet] using h
        simp [e6query.or_check, setTruthy, optSet, hs]
  rw [query_function_eq_checks, query_function_eq_checks, horc]

/-- Witness for C3 at concrete inputs. -/
theorem optional_tags_pass_iff_empty_or_match_witness :
    (optSet (some {"bear"}) = ∅
      ∨ ∃ t ∈ optSet (some {"bear"}), t ∈ ({"bear", "wolf"} : Finset String))
    ∧ e6query.query_function (some {"wolf"}) none (some ∅) {"wolf"}
        = e6query.query_function (some {"wolf"}) none none {"wolf"} :=
  ⟨(optional_tags_pass_iff_empty_or_match none none (some {"bear"})
      {"bear", "wolf"}).1.mp (by decide),
   (optional_tags_pass_iff_empty_or_match (some {"wolf"}) none (some ∅)
      {"wolf"}).2 rfl⟩

/-- C4: whenever some tag lies in both the required and the excluded set,
filtering any record collection with the predicate built from those sets
yields zero matching records; the overlapping sets are accepted by
`build_query_function` (a total function that performs no validation), not
rejected as an error. -/
theorem overlap_required_excluded_no_matches (A N O : Option (Finset String))
    (records : List (Finset String)) (h : ∃ t ∈ optSet A, t ∈ optSet N) :
    e6query.filterPosts A N O records = [] := by
  unfold e6query.filterPosts e6query.build_query_function
  rw [List.filter_eq_nil_iff]
  intro tags _
  simp [query_function_false_of_overlap A N O tags h]

/-- Witness for C4 at concrete inputs. -/
theorem overlap_required_excluded_no_matches_witness :
    (∃ t ∈ optSet (some {"fox"}), t ∈ optSet (some {"fox"}))
    ∧ e6query.filterPosts (some {"fox"}) (some {"fox"}) none
        [{"fox"}, {"wolf"}] = [] :=
  ⟨by decide,
   overlap_required_excluded_no_matches (some {"fox"}) (some {"fox"}) none
      [{"fox"}, {"wolf"}] (by decide)⟩

/-- C5 (the code evaluated at the failing input): on the query string
consisting of the single token `+` — a tag token whose name is empty after
stripping its prefix — `build_search_query` raises `TypeError` from the
`typing.List()` call of line 93 before examining any token; it never
returns any `ParseError::EmptyTag` (no such error path exists anywhere in
the code). -/
theorem build_search_query_empty_tag_token_raises :
    build_search_query "+"
      = .error (.typeError "Type List cannot be instantiated; use list() instead") :=
  rfl

/-- C6 (the code evaluated at the failing input): on the malformed token
`:::` — no known field name — `build_search_query` crashes with the same
`TypeError` rather than failing with `ParseError::UnknownField`; the token
loop (which, were it reached, silently skips unknown field names with no
error) is unreachable, so no error value of any kind is ever returned. -/
theorem build_search_query_unknown_field_token_raises :
    build_search_query ":::"
      = .error (.typeError "Type List cannot be instantiated; use list() instead") :=
  rfl

/-- C7 (the code evaluated at the failing input): on the colon-free tag
token `+Wolf` the parser classifies nothing: it raises `TypeError` before
the classification branch, and that branch is doubly dead (its guard
`colon is None` can never hold for a regex group, and the recorded name
`spec` would never be lowercased). -/
theorem build_search_query_tag_token_raises :
    build_search_query "+Wolf"
      = .error (.typeError "Type List cannot be instantiated; use list() instead") :=
  rfl

/-- C8 (the code evaluated at its sort call): the `sort_values` call of
cli.py lines 204-206 passes no `kind`, so it sorts with the pandas default
`quicksort`, which carries no stability guarantee — the code does not
request one of the two stable kinds the claim requires. -/
theorem cli_sort_values_kind_not_stable :
    mainSortValuesKind.guaranteesStable = false :=
  rfl

/-- C9: for every record hash and extension, the derived download URL is
the fixed base followed by the first two characters of the hash, a slash,
the next two characters, a slash, the full hash, a dot, and the extension;
the e6query and e6search copies agree. -/
theorem download_url_shards_hash (md5 file_ext : String) :
    get_url md5 file_ext
      = "https://static1.e621.net/data/" ++ (md5.data.take 2).asString ++ "/"
          ++ ((md5.data.drop 2).take 2).asString ++ "/" ++ md5 ++ "." ++ file_ext
    ∧ get_file_url md5 file_ext = get_url md5 file_ext :=
  ⟨rfl, rfl⟩

/-- C10: the three copies of the tag-filter predicate builder — in
e6query.py, e6search.py and e6db.py — are extensionally equal: for every
choice of required, excluded and optional tag sets and every record tag
set, the three predicates return the same boolean. -/
theorem tag_filter_copies_extensionally_equal (A N O : Option (Finset String))
    (tags : Finset String) :
    e6query.query_function A N O tags = e6search.query_function A N O tags
    ∧ e6search.query_function A N O tags = e6db.query_function A N O tags :=
  ⟨rfl, rfl⟩
